import Mathlib

/-!
Verification of the retrieval-augmented-generation pipeline implemented in `app.py`
(repository `rag-simple`).

The development is a shallow embedding of the file: each Python function becomes a
Lean function over explicit inputs that stand for the external world (the opened
PDF, the documents directory, the chromadb collection state, the HTTP backend).
Python exceptions are modelled with `Except PyExc`; a function that cannot raise to
its caller returns `Except.ok` on every input.  Printed diagnostics that the claims
mention are returned alongside the value.
-/

namespace RagSimple

/-- Characters removed by Python `str.strip()` with no argument. -/
def pyIsSpace (c : Char) : Bool :=
  c == ' ' || c == '\t' || c == '\n' || c == '\r' || c == '\x0b' || c == '\x0c'

/-- Python `s.strip()`: drop leading and trailing whitespace. -/
def pyStrip (s : String) : String :=
  String.mk (((s.data.dropWhile pyIsSpace).reverse.dropWhile pyIsSpace).reverse)

/-- Python `s.replace("  ", " ")`: replace non-overlapping occurrences of two
consecutive spaces by one space, scanning left to right. -/
def collapseDoubleSpaces : List Char → List Char
  | ' ' :: ' ' :: cs => ' ' :: collapseDoubleSpaces cs
  | c :: cs => c :: collapseDoubleSpaces cs
  | [] => []

/-- Python `s.endswith(suffix)`. -/
def pyEndsWith (s suffix : String) : Bool :=
  List.isSuffixOf suffix.data s.data

/-- The Python exception classes that the handlers in `app.py` distinguish.
`requestException` covers `requests.exceptions.RequestException` and its
subclass `HTTPError` raised by `raise_for_status`; `valueError` covers
`ValueError` and its subclass `json.JSONDecodeError` raised by `response.json()`.
`keyError`, `indexError`, `typeError` and `attributeError` are caught by no
handler in the file; `otherError` stands for any further `Exception`
(for example a `pdfplumber` parse failure). -/
inductive PyExc where
  | requestException (m : String)
  | valueError (m : String)
  | keyError (k : String)
  | indexError (m : String)
  | typeError (m : String)
  | attributeError (m : String)
  | otherError (m : String)
deriving DecidableEq

/-- Python `str(e)` for the modelled exception values. -/
def PyExc.msg : PyExc → String
  | .requestException m => m
  | .valueError m => m
  | .keyError k => k
  | .indexError m => m
  | .typeError m => m
  | .attributeError m => m
  | .otherError m => m

/-! ## TextExtractor: `extract_text_from_pdf` -/

/-- The placeholder appended for a page with no extractable text
(`f"[No text found on page {page_num}]"`, 1-based page number). -/
def noTextPlaceholder (page_num : Nat) : String :=
  "[No text found on page " ++ toString page_num ++ "]"

/-- The per-page normalization of the source: first
`text.replace("  ", " ")`, then `"\n".join(line.strip() for line in text.split("\n"))`. -/
def normalizePage (text : String) : String :=
  let text1 := String.mk (collapseDoubleSpaces text.data)
  String.intercalate "\n" ((text1.splitOn "\n").map pyStrip)

/-- One iteration of the page loop: `p.1` is the 0-based position (the loop counts
from 1), `p.2` is the `page.extract_text(x_tolerance=3, y_tolerance=3)` result,
where `none` models Python `None`.  The `if` mirrors `if text:`, whose condition is
false exactly for `None` and the empty string. -/
def pageItem (p : Nat × Option String) : String :=
  match p.2 with
  | some text => if text ≠ "" then normalizePage text else noTextPlaceholder (p.1 + 1)
  | none => noTextPlaceholder (p.1 + 1)

/-- Body of the `try` in `extract_text_from_pdf`: build `text_content` by the page
loop, then `" ".join(text_content)`. -/
def extractBody (pages : List (Option String)) : String :=
  let text_content := pages.enum.foldl (fun acc p => acc ++ [pageItem p]) []
  String.intercalate " " text_content

/-- Embedding of `extract_text_from_pdf(pdf_path)`.  `opened` is the outcome of
`pdfplumber.open` together with the per-page `extract_text` results: `.error e`
models any exception raised inside the `try` block, `.ok pages` a successfully
parsed document.  The value is the returned string together with the printed
diagnostics; the outer `Except` is what the function raises to its own caller,
which is nothing on any input because the handler catches `Exception`. -/
def extract_text_from_pdf (pdf_path : String)
    (opened : Except PyExc (List (Option String))) :
    Except PyExc (String × List String) :=
  match opened with
  | .ok pages => .ok (extractBody pages, [])
  | .error e => .ok ("", ["Error extracting text from " ++ pdf_path ++ ": " ++ e.msg])

/-- The string value a call `extract_text_from_pdf(pdf_path)` evaluates to. -/
def extractValue (pdf_path : String) (opened : Except PyExc (List (Option String))) : String :=
  match extract_text_from_pdf pdf_path opened with
  | .ok (text, _) => text
  | .error _ => ""

/-! ## CorpusBuilder: `process_documents` -/

/-- A document as built by `process_documents`: its `text` and `source` fields. -/
structure Document where
  text : String
  source : String
deriving DecidableEq

/-- The hardcoded `general_docs` list appended by `process_documents`. -/
def general_docs : List Document :=
  [⟨"The Apollo 11 mission landed humans on the moon for the first time on July 20, 1969.",
    "space_facts"⟩,
   ⟨"SpaceX\x27s Falcon 9 is a reusable rocket designed to reduce the cost of space travel.",
    "space_facts"⟩,
   ⟨"The International Space Station orbits Earth at an altitude of about 400 kilometers.",
    "space_facts"⟩,
   ⟨"Mars Rover Perseverance searches for signs of ancient life on the Martian surface.",
    "space_facts"⟩]

/-- The document built for one PDF file (`{"text": text, "source": pdf_path.name}`;
file names are modelled by the strings the directory listing yields). -/
def fileDoc (env : String → Except PyExc (List (Option String))) (pdf_path : String) : Document :=
  ⟨extractValue pdf_path (env pdf_path), pdf_path⟩

/-- Embedding of `process_documents()`.  `docs_dir` is `some files` when
`Path("documents").exists()` holds, with `files` the names matched by
`glob("*.pdf")`, and `none` when the directory is missing.  `env` gives each
file name the opened-PDF outcome that `extract_text_from_pdf` is run on.
The loop keeps a file exactly when `text.strip()` is truthy. -/
def process_documents (docs_dir : Option (List String))
    (env : String → Except PyExc (List (Option String))) : List Document :=
  let pdf_files : List String :=
    match docs_dir with
    | some files => files
    | none => []
  let documents := pdf_files.foldl
    (fun acc pdf_path =>
      if pyStrip (extractValue pdf_path (env pdf_path)) != "" then acc ++ [fileDoc env pdf_path]
      else acc) []
  documents ++ general_docs

/-! ## List helper lemmas -/

lemma foldl_append_map {α β : Type} (g : α → β) :
    ∀ (l : List α) (acc : List β),
      l.foldl (fun a x => a ++ [g x]) acc = acc ++ l.map g := by
  intro l
  induction l with
  | nil => intro acc; simp
  | cons x xs ih => intro acc; simp [List.foldl, ih]

lemma foldl_filter_append_map {α β : Type} (q : α → Bool) (g : α → β) :
    ∀ (l : List α) (acc : List β),
      l.foldl (fun a x => if q x then a ++ [g x] else a) acc = acc ++ (l.filter q).map g := by
  intro l
  induction l with
  | nil => intro acc; simp
  | cons x xs ih =>
      intro acc
      by_cases h : q x <;> simp [List.foldl, h, ih]

/-! ## VectorIndex: the chromadb collection, `store_documents`, `retrieve_documents` -/

/-- One stored chroma entry: unique id, the document text, and its metadata.
The metadata dict is `{"source": ...}` with that single key, so it is modelled
by the value of `"source"`. -/
structure Entry where
  id : String
  text : String
  source : String
deriving DecidableEq

/-- The contents of the persistent chroma collection. -/
abbrev Index := List Entry

/-- Embedding of `store_documents(docs)` acting on the collection state `idx`.
`newIds` models the draw `[str(uuid.uuid4()) for _ in docs]`: one fresh id per
document, so a run is described by a list of the same length as `docs`.
Returns the new collection state and the printed message.  `collection.get()["ids"]`
lists every stored id; `collection.delete(ids=...)` removes the entries with those
ids; `collection.add` appends the given parallel lists as entries. -/
def store_documents (docs : List Document) (newIds : List String) (idx : Index) :
    Index × List String :=
  let existing_ids := idx.map (fun e => e.id)
  let idx1 := if existing_ids ≠ [] then idx.filter (fun e => !(existing_ids.contains e.id))
    else idx
  let documents_text := docs.map (fun d => d.text)
  let documents_ids := newIds
  let documents_metadata := docs.map (fun d => d.source)
  let valid_indices := ((documents_text.enum).filter (fun p => pyStrip p.2 != "")).map
    (fun p => p.1)
  let valid_docs := valid_indices.map (fun i => documents_text.getD i "")
  let valid_ids := valid_indices.map (fun i => documents_ids.getD i "")
  let valid_metadata := valid_indices.map (fun i => documents_metadata.getD i "")
  if valid_docs ≠ [] then
    (idx1 ++ (valid_ids.zip (valid_docs.zip valid_metadata)).map
        (fun p => (⟨p.1, p.2.1, p.2.2⟩ : Entry)),
     ["Successfully stored " ++ toString valid_docs.length ++ " documents in ChromaDB."])
  else
    (idx1, ["No valid documents to store."])

/-- The query result the chromadb client hands back, one row per query text.
A field not named in the `include` argument of `collection.query` comes back as
Python `None` (modelled by `none`); `ids` is always included. -/
structure ChromaQueryResult where
  ids : List (List String)
  documents : Option (List (List String))
  metadatas : Option (List (List String))

/-- Embedding of `collection.query(query_texts=[queryText], n_results=nResults,
include=includeFields)`.  `nn q idx` is the similarity ranking of the stored
entries for query `q` (most similar first), left abstract since the embedding
function is an external model; the client returns the top `n_results` of it and
fills exactly the fields named in `include`. -/
def chromaQuery (nn : String → Index → List Entry) (idx : Index) (queryText : String)
    (nResults : Nat) (includeFields : List String) : ChromaQueryResult :=
  let hits := (nn queryText idx).take nResults
  { ids := [hits.map (fun e => e.id)]
    documents := if includeFields.contains "documents" then some [hits.map (fun e => e.text)]
      else none
    metadatas := if includeFields.contains "metadatas" then some [hits.map (fun e => e.source)]
      else none }

/-- Embedding of `retrieve_documents(query, n_results)`.  The function subscripts
the `documents` and `metadatas` result fields with `[0]`; subscripting the
Python `None` that stands for a field missing from `include` raises `TypeError`,
and subscripting an empty list raises `IndexError`.  No handler is present, so
every such exception propagates to the caller. -/
def retrieve_documents (nn : String → Index → List Entry) (idx : Index)
    (query : String) (n_results : Nat) : Except PyExc (List String × List String) := do
  let results := chromaQuery nn idx query n_results ["metadatas"]
  let documents ← match results.documents with
    | none => Except.error (.typeError "NoneType object is not subscriptable")
    | some rows =>
      match rows with
      | row :: _ => Except.ok row
      | [] => Except.error (.indexError "list index out of range")
  let sources ← match results.metadatas with
    | none => Except.error (.typeError "NoneType object is not subscriptable")
    | some rows =>
      match rows with
      | row :: _ => Except.ok row
      | [] => Except.error (.indexError "list index out of range")
  return (documents, sources)

/-! ## Helper lemmas for `store_documents` -/

lemma drop_eq_getD_cons {α : Type} (d : α) :
    ∀ (M : List α) (n : Nat), n < M.length → M.drop n = M.getD n d :: M.drop (n + 1) := by
  intro M
  induction M with
  | nil => intro n h; simp at h
  | cons a as ih =>
      intro n h
      cases n with
      | zero => simp [List.getD]
      | succ m =>
          have hm : m < as.length := by simpa using h
          simpa [List.getD] using ih m hm

/-- Selecting positions of an enumeration by a predicate on the value and reading a
parallel list `M` back at those positions is filtering the zip. -/
lemma enumFrom_filter_getD {α : Type} (q : String → Bool) (d : α) :
    ∀ (ts : List String) (n : Nat) (M : List α), M.length = n + ts.length →
      ((List.enumFrom n ts).filter (fun p => q p.2)).map (fun p => M.getD p.1 d)
        = ((ts.zip (M.drop n)).filter (fun p => q p.1)).map (fun p => p.2) := by
  intro ts
  induction ts with
  | nil => intro n M h; simp
  | cons t ts ih =>
      intro n M h
      have h' : M.length = n + (ts.length + 1) := by simpa using h
      have hn : n < M.length := by omega
      have hdrop := drop_eq_getD_cons d M n hn
      have hrec := ih (n + 1) M (by omega)
      rw [hdrop]
      rw [show List.enumFrom n (t :: ts) = (n, t) :: List.enumFrom (n + 1) ts from rfl,
        List.zip_cons_cons]
      by_cases hq : q t
      · simp only [List.filter_cons]
        simp [hq]
        simpa using hrec
      · simp only [List.filter_cons]
        simp [hq]
        simpa using hrec

lemma zip_map_same {α β γ : Type} (f : α → β) (g : α → γ) :
    ∀ l : List α, (l.map f).zip (l.map g) = l.map (fun x => (f x, g x)) := by
  intro l
  induction l with
  | nil => simp
  | cons x xs ih => simp [ih]

lemma zip_map_left' {α β γ : Type} (f : α → β) :
    ∀ (l : List α) (l2 : List γ),
      (l.map f).zip l2 = (l.zip l2).map (fun p => (f p.1, p.2)) := by
  intro l
  induction l with
  | nil => intro l2; simp
  | cons x xs ih =>
      intro l2
      cases l2 with
      | nil => simp
      | cons y ys => simp [ih]

lemma filter_of_map {α β : Type} (p : β → Bool) (f : α → β) :
    ∀ l : List α, (l.map f).filter p = (l.filter (fun x => p (f x))).map f := by
  intro l
  induction l with
  | nil => simp
  | cons x xs ih =>
      by_cases h : p (f x) <;> simp [h, ih]

lemma zip_nested_proj {α β γ : Type} :
    ∀ (as : List α) (bs : List β) (cs : List γ), as.length = bs.length →
      bs.length = cs.length →
      (as.zip (bs.zip cs)).map (fun p => (p.2.1, p.2.2)) = bs.zip cs := by
  intro as
  induction as with
  | nil => intro bs cs h1 _; cases bs with
      | nil => simp
      | cons b bs => simp at h1
  | cons a as ih =>
      intro bs cs h1 h2
      cases bs with
      | nil => simp at h1
      | cons b bs =>
          cases cs with
          | nil => simp at h2
          | cons c cs =>
              have := ih bs cs (by simpa using h1) (by simpa using h2)
              simp [this]

lemma contains_of_mem {α : Type} [BEq α] [LawfulBEq α] {l : List α} {a : α}
    (h : a ∈ l) : l.contains a = true := by
  induction l with
  | nil => cases h
  | cons b bs ih =>
      rcases List.mem_cons.mp h with h1 | h2
      · subst h1
        simp [List.contains_cons]
      · rw [List.contains_cons]
        simp only [Bool.or_eq_true]
        exact Or.inr (ih h2)

/-- Deleting every id listed by `collection.get()["ids"]` empties the collection. -/
lemma delete_all_ids (idx : Index) :
    (if idx.map (fun e => e.id) ≠ [] then
        idx.filter (fun e => !((idx.map (fun e => e.id)).contains e.id))
      else idx) = [] := by
  by_cases h : idx.map (fun e => e.id) = []
  · have : idx = [] := by
      cases idx with
      | nil => rfl
      | cons e es => simp at h
    simp [h, this]
  · rw [if_pos h]
    rw [List.filter_eq_nil_iff]
    intro e he
    have hmem : e.id ∈ idx.map (fun e => e.id) := List.mem_map_of_mem (fun e => e.id) he
    have hc := contains_of_mem hmem
    simp only [Bool.not_eq_true]
    rw [hc]
    rfl

/-! ## GenerationClient: `check_llama_server` and `query_llama` -/

/-- JSON values, standing for the Python objects that `json=` request bodies and
`response.json()` results carry.  Numbers are rationals (only the literal
configuration constants 1, 500, 0.7, 0.95 occur). -/
inductive Json where
  | null
  | bool (b : Bool)
  | num (q : ℚ)
  | str (s : String)
  | arr (elems : List Json)
  | obj (fields : List (String × Json))

/-- Python `result.get(key, dflt)`: only dicts carry the `get` method, every other
value raises `AttributeError`. -/
def pyDictGet (j : Json) (key : String) (dflt : Json) : Except PyExc Json :=
  match j with
  | .obj fields => .ok ((fields.lookup key).getD dflt)
  | _ => .error (.attributeError "object has no attribute get")

/-- Python `v.strip()` on a value obtained from a parsed response: only strings
carry `strip`, every other value raises `AttributeError`. -/
def pyStripAttr (j : Json) : Except PyExc String :=
  match j with
  | .str s => .ok (pyStrip s)
  | _ => .error (.attributeError "object has no attribute strip")

/-- Substring test on character lists (Python `needle in haystack` for strings). -/
def containsSub (needle : List Char) : List Char → Bool
  | [] => List.isPrefixOf needle []
  | c :: rest => List.isPrefixOf needle (c :: rest) || containsSub needle rest

/-- Python `key in j` for a string key: key membership for dicts, element
membership for lists, substring test for strings, `TypeError` otherwise. -/
def pyContainsKey (key : String) (j : Json) : Except PyExc Bool :=
  match j with
  | .obj fields => .ok (fields.any (fun p => p.1 == key))
  | .arr elems => .ok (elems.any (fun x => match x with | .str s => s == key | _ => false))
  | .str s => .ok (containsSub key.data s.data)
  | _ => .error (.typeError "argument of type is not iterable")

/-- Python `len(j)`. -/
def pyLen (j : Json) : Except PyExc Nat :=
  match j with
  | .arr elems => .ok elems.length
  | .str s => .ok s.length
  | .obj fields => .ok fields.length
  | _ => .error (.typeError "object has no len")

/-- Python `j[key]` for a string key. -/
def pySubscriptKey (j : Json) (key : String) : Except PyExc Json :=
  match j with
  | .obj fields =>
    match fields.lookup key with
    | some v => .ok v
    | none => .error (.keyError key)
  | .arr _ => .error (.typeError "list indices must be integers")
  | .str _ => .error (.typeError "string indices must be integers")
  | .null => .error (.typeError "NoneType object is not subscriptable")
  | _ => .error (.typeError "object is not subscriptable")

/-- Python `j[i]` for a non-negative integer index. -/
def pySubscriptNat (j : Json) (i : Nat) : Except PyExc Json :=
  match j with
  | .arr elems =>
    match elems.get? i with
    | some v => .ok v
    | none => .error (.indexError "list index out of range")
  | .str s =>
    match s.data.get? i with
    | some c => .ok (.str (String.mk [c]))
    | none => .error (.indexError "string index out of range")
  | .obj _ => .error (.keyError (toString i))
  | .null => .error (.typeError "NoneType object is not subscriptable")
  | _ => .error (.typeError "object is not subscriptable")

/-- An HTTP response as `requests` presents it: the status code and the outcome of
`response.json()` (`.error m` models a body that is not valid JSON, on which
`.json()` raises `json.JSONDecodeError`, a `ValueError`). -/
structure HttpResponse where
  status : Nat
  jsonBody : Except String Json

/-- The external HTTP world.  `probe url body t` models
`requests.post(url, json=body, timeout=t)` issued by `check_llama_server`, and
`gen` the same call issued by `query_llama`; `.error m` models a raised
`requests.exceptions.RequestException` with message `m`. -/
structure Env where
  probe : String → Json → Nat → Except String HttpResponse
  gen : String → Json → Nat → Except String HttpResponse

/-- First candidate URL of `check_llama_server`: the llama.cpp native endpoint. -/
def nativeUrl : String := "http://localhost:8000/completion"

/-- Second candidate URL of `check_llama_server`: the OpenAI-style endpoint. -/
def openaiUrl : String := "http://localhost:8000/v1/completions"

/-- The discovery probe body `{"prompt": "test", "max_tokens": 1}`. -/
def trialBody : Json := Json.obj [("prompt", Json.str "test"), ("max_tokens", Json.num 1)]

/-- Embedding of `check_llama_server()`: walk the fixed endpoint list in order,
posting the trial body with timeout 5; a `RequestException` means `continue`;
the first URL answering status 200 is returned, otherwise `None`.
(The outer `try` catches exceptions the loop cannot raise in this model.) -/
def check_llama_server (env : Env) : Option String :=
  let endpoints := [nativeUrl, openaiUrl]
  endpoints.find? (fun url =>
    match env.probe url trialBody 5 with
    | .error _ => false
    | .ok response => response.status == 200)

/-- The `full_prompt` f-string of `query_llama`, built via
`sources_text = "\nSources: " + ", ".join(sources)`. -/
def buildFullPrompt (prompt context : String) (sources : List String) : String :=
  let sources_text := "\nSources: " ++ String.intercalate ", " sources
  "Context: " ++ context ++ "\n\nQuestion: " ++ prompt ++
    "\n\nBased on the provided context, please answer the question:" ++ sources_text ++
    "\nAnswer:"

/-- The request body of `query_llama`: the OpenAI-style payload is built first and
replaced by the native payload when the endpoint ends with `"/completion"`. -/
def buildPayload (endpoint full_prompt : String) : Json :=
  let payload := Json.obj [("prompt", Json.str full_prompt), ("max_tokens", Json.num 500),
    ("temperature", Json.num 0.7), ("top_p", Json.num 0.95),
    ("stop", Json.arr [Json.str "\n\n"])]
  if pyEndsWith endpoint "/completion" then
    Json.obj [("prompt", Json.str full_prompt), ("n_predict", Json.num 500),
      ("temperature", Json.num 0.7), ("top_p", Json.num 0.95),
      ("stop", Json.arr [Json.str "\n\n"])]
  else payload

/-- The fallback string returned when an OpenAI-style body lacks a non-empty
`choices` list. -/
def unexpectedFormatMsg : String := "Error: Unexpected response format from llama.cpp server"

/-- The `try` block of `query_llama` once an endpoint is bound: post the payload
with timeout 30, `raise_for_status()` (an `HTTPError`, i.e. a `RequestException`,
for a 4xx/5xx status), parse the body, then read the answer out of the
endpoint-specific shape.  Each Python operation that can raise is spelled with
its exception. -/
def queryLlamaAttempt (env : Env) (endpoint full_prompt : String) : Except PyExc String := do
  let response ← match env.gen endpoint (buildPayload endpoint full_prompt) 30 with
    | .error m => Except.error (.requestException m)
    | .ok r => Except.ok r
  if 400 ≤ response.status ∧ response.status < 600 then
    Except.error (.requestException ("HTTP error " ++ toString response.status))
  else do
    let result ← match response.jsonBody with
      | .error m => Except.error (.valueError m)
      | .ok j => Except.ok j
    if pyEndsWith endpoint "/completion" then do
      let content ← pyDictGet result "content" (Json.str "")
      pyStripAttr content
    else do
      let hasChoices ← pyContainsKey "choices" result
      if hasChoices then do
        let choices ← pySubscriptKey result "choices"
        let n ← pyLen choices
        if 0 < n then do
          let c0 ← pySubscriptNat choices 0
          let t ← pySubscriptKey c0 "text"
          pyStripAttr t
        else Except.ok unexpectedFormatMsg
      else Except.ok unexpectedFormatMsg

/-- Embedding of `query_llama(prompt, context, sources)`.  Discovery failure is
returned as the instructional error string; `RequestException` and `ValueError`
raised inside the `try` are converted to the two tagged error strings; any other
exception (`KeyError`, `TypeError`, `AttributeError`, `IndexError`) matches no
`except` clause and propagates to the caller. -/
def query_llama (env : Env) (prompt context : String) (sources : List String) :
    Except PyExc String :=
  match check_llama_server env with
  | none => Except.ok ("Error: Could not connect to llama.cpp server. " ++
      "Please verify the server is running and the endpoint is correct. " ++
      "Try starting the server with: ./server --port 8000")
  | some endpoint =>
    let full_prompt := buildFullPrompt prompt context sources
    match queryLlamaAttempt env endpoint full_prompt with
    | .ok answer => .ok answer
    | .error (.requestException m) => .ok ("Error querying llama.cpp server: " ++ m)
    | .error (.valueError m) => .ok ("Error parsing server response: " ++ m)
    | .error e => .error e

/-! ## RagPipeline: `rag_pipeline` -/

/-- Embedding of `rag_pipeline(query)`: retrieve (with the default `n_results=3`),
join the retrieved texts with single spaces, generate.  No handler is present, so
an exception raised by `retrieve_documents` propagates. -/
def rag_pipeline (env : Env) (nn : String → Index → List Entry) (idx : Index)
    (query : String) : Except PyExc String := do
  let res ← retrieve_documents nn idx query 3
  let context := String.intercalate " " res.1
  query_llama env query context res.2

/-! ## Characterization of `store_documents` -/

lemma valid_extract {α : Type} (q : String → Bool) (d : α) (ts : List String) (M : List α)
    (h : M.length = ts.length) :
    ((ts.enum.filter (fun p => q p.2)).map (fun p => p.1)).map (fun i => M.getD i d)
      = ((ts.zip M).filter (fun p => q p.1)).map (fun p => p.2) := by
  have h0 : M.length = 0 + ts.length := by omega
  have key := enumFrom_filter_getD q d ts 0 M h0
  rw [List.drop_zero] at key
  rw [List.map_map]
  rw [show ts.enum = List.enumFrom 0 ts from rfl]
  exact key

lemma store_valid_docs (docs : List Document) :
    ((((docs.map (fun d => d.text)).enum.filter (fun p => pyStrip p.2 != "")).map
        (fun p => p.1)).map (fun i => (docs.map (fun d => d.text)).getD i ""))
      = (docs.filter (fun d => pyStrip d.text != "")).map (fun d => d.text) := by
  have key := valid_extract (fun s => pyStrip s != "") "" (docs.map (fun d => d.text))
    (docs.map (fun d => d.text)) rfl
  simp only [key, zip_map_same, filter_of_map, List.map_map]
  simp

lemma store_valid_sources (docs : List Document) :
    ((((docs.map (fun d => d.text)).enum.filter (fun p => pyStrip p.2 != "")).map
        (fun p => p.1)).map (fun i => (docs.map (fun d => d.source)).getD i ""))
      = (docs.filter (fun d => pyStrip d.text != "")).map (fun d => d.source) := by
  have key := valid_extract (fun s => pyStrip s != "") "" (docs.map (fun d => d.text))
    (docs.map (fun d => d.source)) (by simp)
  simp only [key, zip_map_same, filter_of_map, List.map_map]
  simp

lemma store_valid_ids (docs : List Document) (newIds : List String)
    (h : newIds.length = docs.length) :
    ((((docs.map (fun d => d.text)).enum.filter (fun p => pyStrip p.2 != "")).map
        (fun p => p.1)).map (fun i => newIds.getD i ""))
      = ((docs.zip newIds).filter (fun p => pyStrip p.1.text != "")).map (fun p => p.2) := by
  have key := valid_extract (fun s => pyStrip s != "") "" (docs.map (fun d => d.text))
    newIds (by simpa using h)
  simp only [key, zip_map_left', filter_of_map, List.map_map]
  simp

lemma docs_filter_eq (q : Document → Bool) :
    ∀ (docs : List Document) (newIds : List String), newIds.length = docs.length →
      docs.filter q = ((docs.zip newIds).filter (fun p => q p.1)).map (fun p => p.1) := by
  intro docs
  induction docs with
  | nil => intro newIds h; simp
  | cons d ds ih =>
      intro newIds h
      cases newIds with
      | nil => simp at h
      | cons i is =>
          have hrec := ih is (by simpa using h)
          by_cases hq : q d <;> simp [hq, hrec]

/-- The collection state after `store_documents`: exactly one fresh entry per
document whose stripped text is non-empty, in corpus order, and nothing else. -/
lemma store_documents_result (docs : List Document) (newIds : List String) (idx : Index)
    (h : newIds.length = docs.length) :
    (store_documents docs newIds idx).1 =
      ((docs.zip newIds).filter (fun p => pyStrip p.1.text != "")).map
        (fun p => (⟨p.2, p.1.text, p.1.source⟩ : Entry)) := by
  simp only [store_documents]
  rw [delete_all_ids, store_valid_docs, store_valid_sources, store_valid_ids docs newIds h,
    docs_filter_eq (fun d => pyStrip d.text != "") docs newIds h]
  rw [List.map_map, List.map_map, zip_map_same, zip_map_same, List.map_map]
  by_cases hF : ((docs.zip newIds).filter (fun p => pyStrip p.1.text != "")) = []
  · simp [hF]
  · rw [if_pos]
    · simp
    · simpa using hF

/-! ## Claim theorems -/

/-- Claim C5: for every parseable PDF, the result of `extract_text_from_pdf` equals
the normalized per-page text blocks joined with single spaces, where each page with
text has occurrences of two consecutive spaces collapsed into one and every line
stripped of leading and trailing whitespace with the line breaks inside the page
preserved, and each page yielding no text contributes the placeholder
`[No text found on page n]` with `n` the 1-based page number. -/
theorem extract_text_normalization (pdf_path : String) (pages : List (Option String)) :
    extract_text_from_pdf pdf_path (Except.ok pages) =
      Except.ok (String.intercalate " " (pages.enum.map (fun p =>
        match p.2 with
        | some text =>
          if text ≠ "" then
            String.intercalate "\n"
              (((String.mk (collapseDoubleSpaces text.data)).splitOn "\n").map pyStrip)
          else "[No text found on page " ++ toString (p.1 + 1) ++ "]"
        | none => "[No text found on page " ++ toString (p.1 + 1) ++ "]")), []) := by
  simp only [extract_text_from_pdf, extractBody, foldl_append_map, List.nil_append]
  have hfun : pages.enum.map pageItem = pages.enum.map (fun p =>
      match p.2 with
      | some text =>
        if text ≠ "" then
          String.intercalate "\n"
            (((String.mk (collapseDoubleSpaces text.data)).splitOn "\n").map pyStrip)
        else "[No text found on page " ++ toString (p.1 + 1) ++ "]"
      | none => "[No text found on page " ++ toString (p.1 + 1) ++ "]") := by
    apply List.map_congr_left
    intro p _
    obtain ⟨i, o⟩ := p
    cases o <;> rfl
  rw [hfun]

/-- Claim C9: `extract_text_from_pdf` never raises to its caller: it returns
`Except.ok` on every input, and on every extraction failure the returned value is
the empty string together with the printed diagnostic naming the path and the
cause. -/
theorem extract_text_never_raises (pdf_path : String)
    (opened : Except PyExc (List (Option String))) :
    (∃ out, extract_text_from_pdf pdf_path opened = Except.ok out) ∧
      ∀ e, opened = Except.error e →
        extract_text_from_pdf pdf_path opened =
          Except.ok ("", ["Error extracting text from " ++ pdf_path ++ ": " ++ e.msg]) := by
  constructor
  · cases opened with
    | ok pages => exact ⟨_, rfl⟩
    | error e => exact ⟨_, rfl⟩
  · intro e he
    subst he
    rfl

/-- Witness for C9 at a concrete failing open. -/
theorem extract_text_never_raises_witness :
    extract_text_from_pdf "cv.pdf" (Except.error (.otherError "bad PDF")) =
      Except.ok ("", ["Error extracting text from cv.pdf: bad PDF"]) :=
  (extract_text_never_raises "cv.pdf" (Except.error (.otherError "bad PDF"))).2 _ rfl

/-- Claim C4: for every state of the documents directory, `process_documents`
returns the documents of the PDF files whose extracted text strips to non-empty,
in order, followed by the 4 built-in reference documents tagged `space_facts`;
a missing directory yields exactly the built-in documents, and the result always
holds at least 4 documents. -/
theorem process_documents_guarantee (docs_dir : Option (List String))
    (env : String → Except PyExc (List (Option String))) :
    process_documents docs_dir env =
        ((match docs_dir with
          | some files => files
          | none => []).filter (fun p => pyStrip (extractValue p (env p)) != "")).map
          (fun p => (⟨extractValue p (env p), p⟩ : Document)) ++ general_docs
      ∧ process_documents none env = general_docs
      ∧ general_docs.length = 4
      ∧ general_docs.all (fun d => d.source == "space_facts") = true
      ∧ 4 ≤ (process_documents docs_dir env).length := by
  have hmain : ∀ dd : Option (List String),
      process_documents dd env =
        ((match dd with
          | some files => files
          | none => []).filter (fun p => pyStrip (extractValue p (env p)) != "")).map
          (fun p => (⟨extractValue p (env p), p⟩ : Document)) ++ general_docs := by
    intro dd
    simp only [process_documents, foldl_filter_append_map, List.nil_append, fileDoc]
  refine ⟨hmain docs_dir, ?_, rfl, rfl, ?_⟩
  · rw [hmain none]
    rfl
  · rw [hmain docs_dir]
    simp [general_docs]

/-- Claim C3: `store_documents` first deletes every currently stored entry, so the
ids present afterwards are exactly the ids assigned in that call to the documents
with non-empty stripped text, the stored `(text, source)` pairs are exactly those
of the valid documents of that call independently of the prior index state, and
running ingestion twice in a row on an unchanged document set leaves the index with
the same `(text, source)` pairs whatever fresh ids the second run draws. -/
theorem store_documents_full_replace (docs : List Document) (newIds : List String)
    (idx : Index) (h : newIds.length = docs.length) :
    ((store_documents docs newIds idx).1).map (fun e => (e.text, e.source))
        = (docs.filter (fun d => pyStrip d.text != "")).map (fun d => (d.text, d.source))
      ∧ ((store_documents docs newIds idx).1).map (fun e => e.id)
          = ((docs.zip newIds).filter (fun p => pyStrip p.1.text != "")).map (fun p => p.2)
      ∧ ∀ (newIds2 : List String) (idx2 : Index), newIds2.length = docs.length →
          ((store_documents docs newIds2 idx2).1).map (fun e => (e.text, e.source))
            = ((store_documents docs newIds idx).1).map (fun e => (e.text, e.source)) := by
  have key : ∀ (ids2 : List String) (ix2 : Index), ids2.length = docs.length →
      ((store_documents docs ids2 ix2).1).map (fun e => (e.text, e.source))
        = (docs.filter (fun d => pyStrip d.text != "")).map (fun d => (d.text, d.source)) := by
    intro ids2 ix2 h2
    rw [store_documents_result docs ids2 ix2 h2, List.map_map,
      docs_filter_eq (fun d => pyStrip d.text != "") docs ids2 h2, List.map_map]
    rfl
  refine ⟨key newIds idx h, ?_, fun n2 i2 h2 => (key n2 i2 h2).trans (key newIds idx h).symm⟩
  rw [store_documents_result docs newIds idx h, List.map_map]
  rfl

/-- Witness for C3 at a concrete ingestion over a populated index. -/
theorem store_documents_full_replace_witness :
    ((store_documents [⟨"Doc one", "a.pdf"⟩, ⟨"   ", "b.pdf"⟩] ["id1", "id2"]
          [⟨"old", "stale", "s"⟩]).1).map (fun e => (e.text, e.source))
        = ([(⟨"Doc one", "a.pdf"⟩ : Document), ⟨"   ", "b.pdf"⟩].filter
            (fun d => pyStrip d.text != "")).map (fun d => (d.text, d.source))
      ∧ ((store_documents [⟨"Doc one", "a.pdf"⟩, ⟨"   ", "b.pdf"⟩] ["id1", "id2"]
            [⟨"old", "stale", "s"⟩]).1).map (fun e => e.id)
          = (([(⟨"Doc one", "a.pdf"⟩ : Document), ⟨"   ", "b.pdf"⟩].zip
              ["id1", "id2"]).filter (fun p => pyStrip p.1.text != "")).map (fun p => p.2)
      ∧ ∀ (newIds2 : List String) (idx2 : Index),
          newIds2.length = [(⟨"Doc one", "a.pdf"⟩ : Document), ⟨"   ", "b.pdf"⟩].length →
          ((store_documents [⟨"Doc one", "a.pdf"⟩, ⟨"   ", "b.pdf"⟩] newIds2 idx2).1).map
              (fun e => (e.text, e.source))
            = ((store_documents [⟨"Doc one", "a.pdf"⟩, ⟨"   ", "b.pdf"⟩] ["id1", "id2"]
                [⟨"old", "stale", "s"⟩]).1).map (fun e => (e.text, e.source)) :=
  store_documents_full_replace _ _ _ (by decide)

/-- Claim C10: `store_documents` deletes every existing entry before checking
whether any valid documents remain, so when every document text strips to empty
the call still clears the index, reports the no-valid-documents message and leaves
the index empty. -/
theorem store_documents_clears_even_when_all_invalid (docs : List Document)
    (newIds : List String) (idx : Index) (h : ∀ d ∈ docs, pyStrip d.text = "") :
    store_documents docs newIds idx = ([], ["No valid documents to store."]) := by
  have hq : docs.filter (fun d => pyStrip d.text != "") = [] := by
    rw [List.filter_eq_nil_iff]
    intro d hd
    simp [h d hd]
  simp only [store_documents]
  rw [delete_all_ids, store_valid_docs, hq]
  simp

/-- Witness for C10: a whitespace-only corpus still empties a populated index. -/
theorem store_documents_clears_witness :
    store_documents [⟨"  ", "s.pdf"⟩] ["i1"] [⟨"old", "t", "src"⟩]
      = ([], ["No valid documents to store."]) :=
  store_documents_clears_even_when_all_invalid _ _ _ (by decide)

/-- Claim C1 (refuted; code bug): `rag_pipeline` never returns a string at all.
`retrieve_documents` asks `collection.query` for `include=["metadatas"]` only, so
the client returns the `documents` field as Python `None`; the unguarded subscript
of that `None` with `[0]` then raises `TypeError`, and neither `retrieve_documents`
nor `rag_pipeline` has a handler, so on every query string and every index state
the exception propagates to the caller instead of a returned answer or error
string. -/
theorem rag_pipeline_always_raises_typeError (env : Env) (nn : String → Index → List Entry)
    (idx : Index) (query : String) :
    rag_pipeline env nn idx query
      = Except.error (.typeError "NoneType object is not subscriptable") := rfl

/-- A backend world for C2: discovery finds the OpenAI-style endpoint (the native
one refuses connections), and generation answers HTTP 200 with the JSON body
`{"choices": [{}]}` — a well-formed but unexpected response. -/
def envChoicesNoText : Env :=
  ⟨fun url _ _ =>
      if url = nativeUrl then Except.error "Connection refused"
      else Except.ok ⟨200, Except.ok Json.null⟩,
   fun _ _ _ =>
      Except.ok ⟨200, Except.ok (Json.obj [("choices", Json.arr [Json.obj []])])⟩⟩

/-- Claim C2 (refuted; code bug): `query_llama` does not convert every malformed
response body into an error string.  Against `envChoicesNoText`, the HTTP 200
response body with a single empty object under the `choices` key passes the
key-membership and length checks, and the subscript of the first choice with the
key `text` raises a `KeyError`, which neither `except` clause catches, so the
exception propagates for every question, context and sources. -/
theorem query_llama_uncaught_keyError (q c : String) (ss : List String) :
    query_llama envChoicesNoText q c ss = Except.error (.keyError "text") := rfl

/-- The loop-body predicate of `check_llama_server` evaluates to `false` at a URL
whose probe raises or answers any non-200 status. -/
lemma probe_not_200 (env : Env) (url : String)
    (h : ∀ r, env.probe url trialBody 5 = Except.ok r → r.status ≠ 200) :
    (match env.probe url trialBody 5 with
      | .error _ => false
      | .ok response => response.status == 200) = false := by
  cases hc : env.probe url trialBody 5 with
  | error m => rfl
  | ok r => simpa using h r hc

/-- Claim C6: `check_llama_server` probes the fixed ordered candidate list — the
native completion endpoint first, then the OpenAI-style completions endpoint —
with the minimal trial body and the 5-unit timeout, and returns the first
candidate answering HTTP 200: a native 200 answer binds the native endpoint
whatever the second candidate would say; when the first candidate is down
(refused or any non-200 answer) and the second answers 200, the second is bound
and the payload built for it carries the token budget under `max_tokens`; and
when no candidate answers 200 the result is `none`. -/
theorem check_llama_server_first_200 (env : Env) :
    (∀ r, env.probe nativeUrl trialBody 5 = Except.ok r → r.status = 200 →
        check_llama_server env = some nativeUrl)
      ∧ ((∀ r, env.probe nativeUrl trialBody 5 = Except.ok r → r.status ≠ 200) →
          ∀ r, env.probe openaiUrl trialBody 5 = Except.ok r → r.status = 200 →
            check_llama_server env = some openaiUrl ∧
              ∀ fp, buildPayload openaiUrl fp
                  = Json.obj [("prompt", Json.str fp), ("max_tokens", Json.num 500),
                      ("temperature", Json.num 0.7), ("top_p", Json.num 0.95),
                      ("stop", Json.arr [Json.str "\n\n"])])
      ∧ ((∀ r, env.probe nativeUrl trialBody 5 = Except.ok r → r.status ≠ 200) →
          (∀ r, env.probe openaiUrl trialBody 5 = Except.ok r → r.status ≠ 200) →
          check_llama_server env = none) := by
  refine ⟨?_, ?_, ?_⟩
  · intro r hr h200
    have h1 : (match env.probe nativeUrl trialBody 5 with
        | .error _ => false
        | .ok response => response.status == 200) = true := by
      rw [hr]
      simpa using h200
    simp only [check_llama_server, List.find?, h1]
  · intro hA r hB hB200
    constructor
    · have h1 := probe_not_200 env nativeUrl hA
      have h2 : (match env.probe openaiUrl trialBody 5 with
          | .error _ => false
          | .ok response => response.status == 200) = true := by
        rw [hB]
        simpa using hB200
      simp only [check_llama_server, List.find?, h1, h2]
    · intro fp
      simp [buildPayload, show pyEndsWith openaiUrl "/completion" = false by decide]
  · intro hA hB
    have h1 := probe_not_200 env nativeUrl hA
    have h2 := probe_not_200 env openaiUrl hB
    simp only [check_llama_server, List.find?, h1, h2]

/-- A backend world where the native endpoint answers 200. -/
def envNativeUp : Env :=
  ⟨fun _ _ _ => Except.ok ⟨200, Except.ok Json.null⟩,
   fun _ _ _ => Except.error "unused"⟩

/-- A backend world where the native endpoint refuses connections and the
OpenAI-style endpoint answers 200. -/
def envOpenaiOnly : Env :=
  ⟨fun url _ _ =>
      if url = openaiUrl then Except.ok ⟨200, Except.ok Json.null⟩
      else Except.error "Connection refused",
   fun _ _ _ => Except.error "unused"⟩

/-- A backend world where every probe refuses connections. -/
def envAllDown : Env :=
  ⟨fun _ _ _ => Except.error "Connection refused",
   fun _ _ _ => Except.error "unused"⟩

/-- Witness for C6 at three concrete worlds: native up (priority), native down
with OpenAI up (fallback and payload shape), and everything down (`none`). -/
theorem check_llama_server_first_200_witness :
    check_llama_server envNativeUp = some nativeUrl
      ∧ (check_llama_server envOpenaiOnly = some openaiUrl ∧
          ∀ fp, buildPayload openaiUrl fp
              = Json.obj [("prompt", Json.str fp), ("max_tokens", Json.num 500),
                  ("temperature", Json.num 0.7), ("top_p", Json.num 0.95),
                  ("stop", Json.arr [Json.str "\n\n"])])
      ∧ check_llama_server envAllDown = none := by
  refine ⟨(check_llama_server_first_200 envNativeUp).1 ⟨200, Except.ok Json.null⟩ rfl rfl,
    (check_llama_server_first_200 envOpenaiOnly).2.1 ?_ ⟨200, Except.ok Json.null⟩ rfl rfl,
    (check_llama_server_first_200 envAllDown).2.2 ?_ ?_⟩
  · intro r h
    rw [show envOpenaiOnly.probe nativeUrl trialBody 5 = Except.error "Connection refused"
      from rfl] at h
    exact Except.noConfusion h
  · intro r h
    rw [show envAllDown.probe nativeUrl trialBody 5 = Except.error "Connection refused"
      from rfl] at h
    exact Except.noConfusion h
  · intro r h
    rw [show envAllDown.probe openaiUrl trialBody 5 = Except.error "Connection refused"
      from rfl] at h
    exact Except.noConfusion h

/-- Claim C7: the request body `query_llama` builds carries the token budget under
`n_predict` for the native endpoint and under `max_tokens` for the OpenAI-style
endpoint; in both shapes the budget is 500, the temperature 0.7, top-p 0.95, and
the stop sequence a double newline. -/
theorem query_llama_payload_shapes (fp : String) :
    buildPayload nativeUrl fp
        = Json.obj [("prompt", Json.str fp), ("n_predict", Json.num 500),
            ("temperature", Json.num 0.7), ("top_p", Json.num 0.95),
            ("stop", Json.arr [Json.str "\n\n"])]
      ∧ buildPayload openaiUrl fp
          = Json.obj [("prompt", Json.str fp), ("max_tokens", Json.num 500),
              ("temperature", Json.num 0.7), ("top_p", Json.num 0.95),
              ("stop", Json.arr [Json.str "\n\n"])] := by
  constructor
  · simp [buildPayload, show pyEndsWith nativeUrl "/completion" = true by decide]
  · simp [buildPayload, show pyEndsWith openaiUrl "/completion" = false by decide]

/-- Claim C8: the prompt sent by `query_llama` is exactly the literal structure
with the context, a blank line, the question, a blank line, the instruction line,
the comma-joined sources line and the final answer cue. -/
theorem query_llama_prompt_structure (q c : String) (ss : List String) :
    buildFullPrompt q c ss =
      "Context: " ++ c ++ "\n\nQuestion: " ++ q ++
        "\n\nBased on the provided context, please answer the question:\nSources: " ++
        String.intercalate ", " ss ++ "\nAnswer:" := by
  simp [buildFullPrompt, String.append_assoc]
  congr 1

end RagSimple
